import Mathlib

/-!
Shallow embedding of `src/main.py` — a Discord bot rendering an interactive,
paginated "Role Matrix" dashboard for a guild's roles.

We model the pure data flow of the program: the formatter helpers
(`create_progress_bar`, `format_ansi_row`), the pagination view state
(`PaginationView.__init__`, `update_buttons`, `generate_dashboard_embed`,
the `prev`/`next` button callbacks), the role-detail dropdown
(`RoleDetailSelect.callback`) and the `roles` slash command.

Python floats are modelled as rationals; Python ints as `Int`/`Nat`;
Python runtime faults (IndexError on `[]`-indexing, AttributeError on a
`None` dereference) as `Except Err`.  Discord-library objects (`Role`,
`Guild`, `Interaction`, `Embed`) are modelled as plain structures holding
exactly the attributes the program reads.
-/

/-- A role, holding the attributes `main.py` reads:
`id`, `name`, `members` (the program only uses `len(role.members)`),
`permissions` (iterated as name/flag pairs, plus the `administrator` bit),
`hoist`, `mentionable`, `created_at` (as a Unix timestamp) and the
color (`color.value`, and `str(role.color)` as `colorStr`). -/
structure Role where
  id : Nat
  name : String
  members : Nat
  permissions : List (String × Bool)
  administrator : Bool
  hoist : Bool
  mentionable : Bool
  createdAt : Int
  colorValue : Nat
  colorStr : String
deriving Repr, DecidableEq

/-- Model of `role.mention`, which is the string `<@&{id}>`. -/
def Role.mention (r : Role) : String := "<@&" ++ toString r.id ++ ">"

/-- A guild: the program reads `guild.name`, `guild.member_count`,
`guild.roles` and calls `guild.get_role`. -/
structure Guild where
  name : String
  member_count : Nat
  roles : List Role
deriving Repr, DecidableEq

/-- Model of `guild.get_role(role_id)`: lookup by identifier, `None` when absent. -/
def Guild.get_role (g : Guild) (roleId : Nat) : Option Role :=
  g.roles.find? (fun r => r.id = roleId)

/-- The aspects of `discord.Interaction` the handlers read:
`interaction.guild` and `interaction.user.id`. -/
structure Interaction where
  guild : Guild
  userId : Nat
deriving Repr, DecidableEq

/-- Model of one `embed.add_field(name=..., value=..., inline=...)` entry. -/
structure EmbedField where
  name : String
  value : String
  inline : Bool
deriving Repr, DecidableEq

/-- A `discord.Embed` as the program populates it. -/
structure Embed where
  title : Option String := none
  description : Option String := none
  color : Nat := 0
  authorName : Option String := none
  fields : List EmbedField := []
  footer : Option String := none
deriving Repr, DecidableEq

/-- Python runtime faults the program can raise on the modelled paths. -/
inductive Err where
  /-- IndexError: indexing into an empty list (`self.roles[0]`, `self.values[0]`). -/
  | indexError
  /-- AttributeError: attribute access on `None` (`role.name` after a failed
  `guild.get_role`). -/
  | attributeError
deriving Repr, DecidableEq

/-- A response emitted back to Discord by a handler. -/
inductive Response where
  /-- Case `interaction.response.send_message(text, ephemeral=True)`. -/
  | ephemeralText (msg : String)
  /-- Case `interaction.response.send_message(embed=e, ephemeral=True)`. -/
  | ephemeralEmbed (e : Embed)
  /-- Case `interaction.response.edit_message(embed=e, view=...)`. -/
  | editMessage (e : Embed)
deriving Repr, DecidableEq

/-- Constant `UIStyles.BG_COLOR = 0x2b2d31`. -/
def UIStyles.BG_COLOR : Nat := 0x2b2d31

/-- The two glyphs of the text progress bar: `█` (filled) and `░` (empty). -/
inductive Glyph where
  | filled
  | empty
deriving Repr, DecidableEq

/-- Python `int(q)` on a rational: truncation toward zero. -/
def pyInt (q : ℚ) : Int := if q < 0 then ⌈q⌉ else ⌊q⌋

/-- Model of `create_progress_bar(percentage, length)`:
`filled = int(length * percentage)`, `empty = length - filled`,
returns `"█" * filled + "░" * empty` (Python string repetition with a
negative count yields the empty string, hence the `Int.toNat`s). -/
def create_progress_bar (percentage : ℚ) (length : Nat) : List Glyph :=
  let filled : Int := pyInt ((length : ℚ) * percentage)
  let empty : Int := (length : Int) - filled
  List.replicate filled.toNat Glyph.filled ++ List.replicate empty.toNat Glyph.empty

/-- Value of `math.ceil(n / 10)` for a nonnegative integer `n`, as computed exactly. -/
def ceil10 (n : Nat) : Nat := (n + 9) / 10

/-- The mutable state of `PaginationView` (minus the child widgets):
`roles` (filtered and reversed), `author_id`, `current_page`,
`items_per_page`, `total_pages`, and the three button attributes
maintained by `update_buttons`. -/
structure PaginationView where
  roles : List Role
  author_id : Nat
  current_page : Int
  items_per_page : Nat
  total_pages : Nat
  prev_disabled : Bool
  next_disabled : Bool
  page_counter_label : String
deriving Repr, DecidableEq

/-- Model of `PaginationView.update_buttons`:
`prev_btn.disabled = current_page == 0`,
`next_btn.disabled = current_page == total_pages - 1` (Python integer
arithmetic: `total_pages - 1` may be `-1`),
`page_counter.label = f"Page {current_page + 1}/{total_pages}"`. -/
def PaginationView.update_buttons (v : PaginationView) : PaginationView :=
  { v with
    prev_disabled := decide (v.current_page = 0)
    next_disabled := decide (v.current_page = (v.total_pages : Int) - 1)
    page_counter_label :=
      "Page " ++ toString (v.current_page + 1) ++ "/" ++ toString v.total_pages }

/-- Model of `PaginationView.__init__(roles, author_id)`:
filters out `@everyone`, reverses, sets `current_page = 0`,
`items_per_page = 10`, `total_pages = math.ceil(len(roles) / items_per_page)`
(note: no minimum of 1), then runs `update_buttons`. -/
def PaginationView.init (roles : List Role) (author_id : Nat) : PaginationView :=
  let rs := (roles.filter (fun r => r.name ≠ "@everyone")).reverse
  PaginationView.update_buttons
    { roles := rs
      author_id := author_id
      current_page := 0
      items_per_page := 10
      total_pages := ceil10 rs.length
      prev_disabled := false
      next_disabled := false
      page_counter_label := "Page 1/1" }

/-- Python slice `roles[start:end]` with `start = page * 10`, `end = start + 10`:
the page slice of `generate_dashboard_embed`. -/
def pageSlice (rs : List Role) (page : Nat) : List Role :=
  (rs.drop (page * 10)).take 10

/-- ANSI codes from `UIStyles` used by the row formatter. -/
def UIStyles.ANSI_RESET : String := "\x1b[0m"

def UIStyles.ANSI_BLUE : String := "\x1b[34m"

def UIStyles.ANSI_CYAN : String := "\x1b[36m"

def UIStyles.ANSI_GREEN : String := "\x1b[32m"

def UIStyles.ANSI_MAGENTA : String := "\x1b[35m"

def UIStyles.ANSI_WHITE : String := "\x1b[37m"

def UIStyles.ANSI_YELLOW : String := "\x1b[33m"

def UIStyles.ANSI_BOLD : String := "\x1b[1m"

/-- Python `s[:n]` on a string. -/
def pyTake (s : String) (n : Nat) : String := ⟨s.data.take n⟩

/-- Python `s.ljust(n)`: pad on the right with spaces to width `n`. -/
def pyLjust (s : String) (n : Nat) : String :=
  s ++ ⟨List.replicate (n - s.data.length) ' '⟩

/-- Python `s.rjust(n)`: pad on the left with spaces to width `n`. -/
def pyRjust (s : String) (n : Nat) : String :=
  ⟨List.replicate (n - s.data.length) ' '⟩ ++ s

/-- Python `sub in s`: substring containment. -/
def pyContains (s sub : String) : Bool :=
  (List.range (s.data.length + 1)).any (fun i => (s.data.drop i).take sub.data.length = sub.data)

/-- Render a glyph to its character. -/
def Glyph.char : Glyph → Char
  | .filled => '█'
  | .empty => '░'

/-- Model of `format_ansi_row(role_name, member_count, percentage, is_hoisted)`. -/
def format_ansi_row (role_name : String) (member_count : Nat) (percentage : ℚ)
    (is_hoisted : Bool) : String :=
  let name_display :=
    if role_name.data.length > 18 then pyTake role_name 18 ++ ".." else pyLjust role_name 20
  let name_color := UIStyles.ANSI_WHITE
  let name_color := if is_hoisted then UIStyles.ANSI_CYAN else name_color
  let name_color :=
    if pyContains role_name "Admin" || pyContains role_name "Mod" then UIStyles.ANSI_MAGENTA
    else name_color
  let bar : String := ⟨(create_progress_bar percentage 8).map Glyph.char⟩
  name_color ++ name_display ++ UIStyles.ANSI_RESET ++ " " ++
    UIStyles.ANSI_BLUE ++ "│" ++ UIStyles.ANSI_RESET ++ " " ++
    UIStyles.ANSI_YELLOW ++ pyRjust (toString member_count) 3 ++ UIStyles.ANSI_RESET ++ " " ++
    UIStyles.ANSI_GREEN ++ bar ++ UIStyles.ANSI_RESET

/-- Model of `PaginationView.generate_dashboard_embed(guild)`.  Pure except for the
`UPDATED` field, which reads the clock: we pass `now` in.  Raises
IndexError (modelled as `Except.error`) at `self.roles[0].mention` when the
filtered role list is empty. -/
def PaginationView.generate_dashboard_embed (v : PaginationView) (guild : Guild)
    (now : Int) : Except Err Embed :=
  let page_roles := pageSlice v.roles v.current_page.toNat
  let total_members := guild.member_count
  let header := UIStyles.ANSI_BOLD ++ "ROLE NAME            │ MEM PREVALENCE" ++ UIStyles.ANSI_RESET
  let rows := page_roles.map (fun role =>
    let perc : ℚ := if total_members > 0 then (role.members : ℚ) / (total_members : ℚ) else 0
    format_ansi_row role.name role.members perc role.hoist)
  let ansi_block := "```ansi\n" ++ header ++ "\n" ++ ⟨List.replicate 35 '━'⟩ ++ "\n" ++
    String.intercalate "\n" rows ++ "\n```"
  match v.roles with
  | [] => Except.error Err.indexError
  | highest :: _ =>
    Except.ok
      { color := UIStyles.BG_COLOR
        authorName := some ("SERVER ROLE MATRIX: " ++ guild.name.toUpper)
        description := some ansi_block
        fields :=
          [ ⟨"TOTAL ROLES", "**" ++ toString v.roles.length ++ "**", true⟩,
            ⟨"HIGHEST ROLE", highest.mention, true⟩,
            ⟨"UPDATED", "<t:" ++ toString now ++ ":R>", true⟩ ]
        footer := some "System ID: R-800 • Interactive Dashboard" }

/-- Model of the `PaginationView.prev_btn` callback: rejects a non-author with an
ephemeral notice and no state change; otherwise decrements `current_page`,
recomputes the buttons and edits the public message. -/
def PaginationView.prev_btn (v : PaginationView) (interaction : Interaction)
    (now : Int) : Except Err (PaginationView × Response) :=
  if interaction.userId ≠ v.author_id then
    Except.ok (v, Response.ephemeralText "This isn't your dashboard.")
  else
    let v := { v with current_page := v.current_page - 1 }
    let v := v.update_buttons
    (v.generate_dashboard_embed interaction.guild now).map
      (fun embed => (v, Response.editMessage embed))

/-- Model of the `PaginationView.next_btn` callback: symmetric to `prev_btn`,
incrementing `current_page`. -/
def PaginationView.next_btn (v : PaginationView) (interaction : Interaction)
    (now : Int) : Except Err (PaginationView × Response) :=
  if interaction.userId ≠ v.author_id then
    Except.ok (v, Response.ephemeralText "This isn't your dashboard.")
  else
    let v := { v with current_page := v.current_page + 1 }
    let v := v.update_buttons
    (v.generate_dashboard_embed interaction.guild now).map
      (fun embed => (v, Response.editMessage embed))

/-- Python `str.title()` restricted to cased/uncased characters:
an alphabetic character is uppercased when the previous character is not
alphabetic, lowercased otherwise. -/
def pyTitleAux : Bool → List Char → List Char
  | _, [] => []
  | prevAlpha, c :: cs =>
    if c.isAlpha then
      (if prevAlpha then c.toLower else c.toUpper) :: pyTitleAux true cs
    else
      c :: pyTitleAux false cs

def pyTitle (s : String) : String := ⟨pyTitleAux false s.data⟩

/-- Python `p[0].replace('_', ' ')`: single-character replacement. -/
def underscoreToSpace (s : String) : String :=
  ⟨s.data.map (fun c => if c = '_' then ' ' else c)⟩

/-- Model of `[p[0].replace('_', ' ').title() for p in role.permissions if p[1]]`:
the human-readable names of the enabled permissions, in iteration order. -/
def permNames (permissions : List (String × Bool)) : List String :=
  (permissions.filter (fun p => p.2)).map (fun p => pyTitle (underscoreToSpace p.1))

/-- The value of the `🔑 Key Permissions` field:
`"\n".join(f"✅ {p}" for p in perms[:8])`, a `"...and {n-8} more"` note when
more than 8 permissions are enabled, and the Python `or` fallback to the
placeholder text when the string is empty, wrapped in a `diff` code
block. -/
def keyPermsValue (permissions : List (String × Bool)) : String :=
  let perms := permNames permissions
  let perm_str := String.intercalate "\n" ((perms.take 8).map (fun p => "✅ " ++ p))
  let perm_str :=
    if perms.length > 8 then perm_str ++ "\n...and " ++ toString (perms.length - 8) ++ " more"
    else perm_str
  "```diff\n" ++ (if perm_str = "" then "No special perms" else perm_str) ++ "\n```"

/-- The drill-down embed built by `RoleDetailSelect.callback` for a resolved
role. -/
def detailEmbed (role : Role) : Embed :=
  { title := some ("🔹 " ++ role.name)
    description := some ("Detailed analysis for " ++ role.mention)
    color := if role.colorValue ≠ 0 then role.colorValue else UIStyles.BG_COLOR
    fields :=
      [ ⟨"🔑 Key Permissions", keyPermsValue role.permissions, true⟩,
        ⟨"📊 Configuration",
          "**Hoisted:** " ++ (if role.hoist then "Yes" else "No") ++ "\n" ++
          "**Mentionable:** " ++ (if role.mentionable then "Yes" else "No") ++ "\n" ++
          "**Created:** <t:" ++ toString role.createdAt ++ ":R>\n" ++
          "**Color Hex:** " ++ role.colorStr, true⟩ ] }

/-- Model of `RoleDetailSelect.callback(interaction)`:
`role_id = int(self.values[0])` (IndexError on an empty selection list),
`role = interaction.guild.get_role(role_id)` — when the role no longer
exists this is `None` and the following `role.name` raises AttributeError;
otherwise an ephemeral detail embed is sent.  No authorization check is
performed. -/
def RoleDetailSelect.callback (selfValues : List Nat) (interaction : Interaction) :
    Except Err Response :=
  match selfValues with
  | [] => Except.error Err.indexError
  | roleId :: _ =>
    match interaction.guild.get_role roleId with
    | none => Except.error Err.attributeError
    | some role => Except.ok (Response.ephemeralEmbed (detailEmbed role))

/-- Outcome of the `roles` slash command. -/
inductive Outcome where
  /-- Case `interaction.followup.send(text)`: a plain message, no view attached. -/
  | plainMessage (msg : String)
  /-- Case `interaction.followup.send(embed=..., view=...)`: the dashboard with
  its interactive controls. -/
  | dashboard (embed : Embed) (view : PaginationView)
deriving Repr, DecidableEq

/-- The `roles` slash command: defer, read `interaction.guild.roles`, send
`"No roles found!"` when that list is falsy (empty), else construct the
`PaginationView`, generate the dashboard embed and send it with the view. -/
def rolesCommand (interaction : Interaction) (now : Int) : Except Err Outcome :=
  let roles := interaction.guild.roles
  if roles.isEmpty then
    Except.ok (Outcome.plainMessage "No roles found!")
  else
    let view := PaginationView.init roles interaction.userId
    (view.generate_dashboard_embed interaction.guild now).map
      (fun embed => Outcome.dashboard embed view)

/-! ## Concrete sample data used by witnesses and counterexamples -/

/-- The `@everyone` pseudo-role, present in every guild's role list. -/
def everyoneRole : Role :=
  { id := 1, name := "@everyone", members := 5, permissions := [], administrator := false,
    hoist := false, mentionable := false, createdAt := 0, colorValue := 0, colorStr := "#000000" }

/-- A guild whose role list holds nothing but the `@everyone` pseudo-role. -/
def everyoneOnlyGuild : Guild :=
  { name := "Server", member_count := 5, roles := [everyoneRole] }

/-- A sample ordinary role with identifier 7 and no enabled permissions. -/
def sampleRole : Role :=
  { id := 7, name := "Member", members := 3,
    permissions := [("ban members", false), ("kick members", false)],
    administrator := false, hoist := false, mentionable := true, createdAt := 100,
    colorValue := 0xff0000, colorStr := "#ff0000" }

/-- A guild holding `@everyone` and `sampleRole`. -/
def sampleGuild : Guild :=
  { name := "Server", member_count := 5, roles := [everyoneRole, sampleRole] }

/-- A permission list with twelve enabled entries. -/
def twelvePerms : List (String × Bool) :=
  [("p1", true), ("p2", true), ("p3", true), ("p4", true), ("p5", true), ("p6", true),
   ("p7", true), ("p8", true), ("p9", true), ("p10", true), ("p11", true), ("p12", true)]

/-! ## Helper lemmas -/

/-- A page slice never holds more than ten roles. -/
theorem pageSlice_length_le (rs : List Role) (page : Nat) : (pageSlice rs page).length ≤ 10 := by
  unfold pageSlice
  exact (List.length_take_le 10 _)

/-- Shifting the page by one is slicing the list with its first ten roles dropped. -/
theorem pageSlice_succ (rs : List Role) (i : Nat) :
    pageSlice rs (i + 1) = pageSlice (rs.drop 10) i := by
  unfold pageSlice
  rw [List.drop_drop]
  congr 2
  omega

/-- Concatenating the `ceil10 (length)` many page slices of a list, in order,
rebuilds the list. -/
theorem flatMap_pageSlice : ∀ (fuel : Nat) (l : List Role), ceil10 l.length = fuel →
    (List.range fuel).flatMap (fun i => pageSlice l i) = l := by
  intro fuel
  induction fuel with
  | zero =>
    intro l h
    have hlen : l.length = 0 := by unfold ceil10 at h; omega
    rw [List.length_eq_zero.mp hlen]
    rfl
  | succ n ih =>
    intro l h
    have hlen : 1 ≤ l.length := by unfold ceil10 at h; omega
    have hdrop : ceil10 (l.drop 10).length = n := by
      rw [List.length_drop]
      unfold ceil10 at h ⊢
      omega
    rw [List.range_succ_eq_map, List.flatMap_cons, List.flatMap_map]
    have hshift :
        (List.range n).flatMap (fun i => pageSlice l (Nat.succ i))
          = (List.range n).flatMap (fun i => pageSlice (l.drop 10) i) := by
      apply List.flatMap_congr
      intro i _
      exact pageSlice_succ l i
    have h0 : pageSlice l 0 = l.take 10 := by
      unfold pageSlice
      rw [Nat.zero_mul, List.drop_zero]
    rw [hshift, ih _ hdrop, h0, List.take_append_drop]

/-- A string ending in the literal `" more"` is not empty. -/
theorem append_more_ne_empty (a : String) : a ++ " more" ≠ "" := by
  intro he
  have hlen := congrArg String.length he
  rw [String.length_append] at hlen
  have h5 : (" more" : String).length = 5 := rfl
  have h0 : ("" : String).length = 0 := rfl
  omega

/-! ## Claim theorems -/

/-- C1: the spec claims that for a guild with 0 non-everyone roles the
`roles` command yields exactly one plain informational message, no
dashboard and no fault.  The code violates this: `guild.roles` always
contains the `@everyone` pseudo-role, so the `if not roles` guard never
fires; the dashboard is then built over an empty filtered list and
`generate_dashboard_embed` raises IndexError at `self.roles[0].mention`.
This theorem evaluates the command at the failing input. -/
theorem roles_command_everyone_only_faults :
    rolesCommand ⟨everyoneOnlyGuild, 42⟩ 0 = Except.error Err.indexError := rfl

/-- C2: the spec claims a selection whose role was deleted in the meantime
is surfaced as a private notice to the user.  The code instead dereferences
the `None` returned by `guild.get_role` (`role.name`), raising
AttributeError.  This theorem evaluates the callback at the failing
input: role id 999 is absent from the guild, yet the handler faults
instead of producing any `Response`. -/
theorem stale_role_selection_faults :
    everyoneOnlyGuild.get_role 999 = none ∧
    RoleDetailSelect.callback [999] ⟨everyoneOnlyGuild, 42⟩
      = Except.error Err.attributeError :=
  ⟨rfl, rfl⟩

/-- C3 counterexample: the claim says the bar has `round(length*fraction)`
filled glyphs; at fraction 7/10 and length 8 the code produces
`int(5.6) = 5` filled glyphs while `round(5.6) = 6`. -/
theorem create_progress_bar_round_counterexample :
    create_progress_bar (7/10) 8 ≠
      List.replicate (round ((8 : ℚ) * (7/10))).toNat Glyph.filled ++
        List.replicate (8 - (round ((8 : ℚ) * (7/10))).toNat) Glyph.empty := by
  have hneg : ¬ ((8 : ℚ) * (7/10) < 0) := by norm_num
  have hcpb : create_progress_bar (7/10) 8 =
      List.replicate 5 Glyph.filled ++ List.replicate 3 Glyph.empty := by
    simp only [create_progress_bar]
    norm_num [pyInt]
    decide
  have hround : round ((8 : ℚ) * (7/10)) = 6 := by
    rw [round_eq]
    norm_num
  rw [hcpb, hround]
  decide

/-- C3 (amended): for every fraction in [0,1] and every length, the
progress bar is `floor(length*fraction)` (truncation, not rounding) filled
glyphs followed by the remaining empty glyphs, and has exactly `length`
glyphs in total. -/
theorem create_progress_bar_floor_spec (q : ℚ) (n : Nat) (h0 : 0 ≤ q) (h1 : q ≤ 1) :
    create_progress_bar q n =
      List.replicate (Int.toNat ⌊(n : ℚ) * q⌋) Glyph.filled ++
        List.replicate (n - Int.toNat ⌊(n : ℚ) * q⌋) Glyph.empty ∧
    (create_progress_bar q n).length = n := by
  have hnn : (0 : ℚ) ≤ (n : ℚ) * q := mul_nonneg (by positivity) h0
  have hpy : pyInt ((n : ℚ) * q) = ⌊(n : ℚ) * q⌋ := by
    unfold pyInt
    rw [if_neg (not_lt.mpr hnn)]
  have hfl0 : 0 ≤ ⌊(n : ℚ) * q⌋ := Int.floor_nonneg.mpr hnn
  have hle : ⌊(n : ℚ) * q⌋ ≤ (n : Int) := by
    have hq : (n : ℚ) * q ≤ (n : ℚ) := by nlinarith
    calc ⌊(n : ℚ) * q⌋ ≤ ⌊(n : ℚ)⌋ := Int.floor_le_floor hq
    _ = (n : Int) := Int.floor_natCast n
  have hA : (pyInt ((n : ℚ) * q)).toNat = Int.toNat ⌊(n : ℚ) * q⌋ := by rw [hpy]
  have hB : ((n : Int) - pyInt ((n : ℚ) * q)).toNat = n - Int.toNat ⌊(n : ℚ) * q⌋ := by
    rw [hpy]
    omega
  have heq : create_progress_bar q n =
      List.replicate (Int.toNat ⌊(n : ℚ) * q⌋) Glyph.filled ++
        List.replicate (n - Int.toNat ⌊(n : ℚ) * q⌋) Glyph.empty := by
    simp only [create_progress_bar]
    rw [hA, hB]
  refine ⟨heq, ?_⟩
  rw [heq, List.length_append, List.length_replicate, List.length_replicate]
  omega

/-- C3 witness: the amended statement at fraction 1/2 and length 8. -/
theorem create_progress_bar_floor_spec_witness :
    (0 : ℚ) ≤ 1/2 ∧ (1/2 : ℚ) ≤ 1 ∧
    (create_progress_bar (1/2) 8 =
        List.replicate (Int.toNat ⌊((8 : Nat) : ℚ) * (1/2)⌋) Glyph.filled ++
          List.replicate (8 - Int.toNat ⌊((8 : Nat) : ℚ) * (1/2)⌋) Glyph.empty ∧
      (create_progress_bar (1/2) 8).length = 8) :=
  ⟨by norm_num, by norm_num, create_progress_bar_floor_spec (1/2) 8 (by norm_num) (by norm_num)⟩

/-- C4 counterexample: the claim says `total_pages = max(1, ceil(N/10))`
for every role count `N ≥ 0`; the code computes `math.ceil(N/10)` with no
minimum, so for `N = 0` it stores 0, not 1. -/
theorem total_pages_min_counterexample :
    (PaginationView.init [] 0).total_pages
      ≠ max 1 ((PaginationView.init [] 0).roles.length ⌈/⌉ 10) := by
  decide

/-- C4 (amended): `total_pages` equals `ceil(N/10)` with no minimum
applied: it is 0 exactly when the filtered role list is empty (and hence
coincides with `max(1, ceil(N/10))` only for `N ≥ 1`). -/
theorem total_pages_ceil_no_min (roles : List Role) (author : Nat) :
    (PaginationView.init roles author).total_pages
        = (PaginationView.init roles author).roles.length ⌈/⌉ 10 ∧
    ((PaginationView.init roles author).total_pages = 0 ↔
        (PaginationView.init roles author).roles.length = 0) := by
  have h1 : (PaginationView.init roles author).total_pages
      = ceil10 (PaginationView.init roles author).roles.length := rfl
  rw [h1, Nat.ceilDiv_eq_add_pred_div]
  unfold ceil10
  exact ⟨by omega, by omega⟩

/-- C5: every page slice holds at most ten roles, and concatenating the
slices of pages `0, 1, ..., total_pages - 1` in order rebuilds the view's
role list exactly. -/
theorem pagination_slices_partition (roles : List Role) (author : Nat) :
    (∀ i : Nat, (pageSlice (PaginationView.init roles author).roles i).length ≤ 10) ∧
    (List.range (PaginationView.init roles author).total_pages).flatMap
        (fun i => pageSlice (PaginationView.init roles author).roles i)
      = (PaginationView.init roles author).roles := by
  refine ⟨fun i => pageSlice_length_le _ i, ?_⟩
  exact flatMap_pageSlice _ _ rfl

/-- C6: a Previous or Next press by a user other than the dashboard's
creator leaves the view state unchanged, does not edit the public panel,
and answers with the private rejection notice. -/
theorem nonauthor_page_controls_rejected (v : PaginationView) (i : Interaction)
    (now : Int) (h : i.userId ≠ v.author_id) :
    v.prev_btn i now = Except.ok (v, Response.ephemeralText "This isn't your dashboard.") ∧
    v.next_btn i now = Except.ok (v, Response.ephemeralText "This isn't your dashboard.") := by
  unfold PaginationView.prev_btn PaginationView.next_btn
  rw [if_pos h, if_pos h]
  exact ⟨rfl, rfl⟩

/-- C6 witness: user 1 pressing either control on a dashboard created by
user 0. -/
theorem nonauthor_page_controls_rejected_witness :
    (PaginationView.init [] 0).prev_btn ⟨everyoneOnlyGuild, 1⟩ 0
        = Except.ok (PaginationView.init [] 0, Response.ephemeralText "This isn't your dashboard.") ∧
    (PaginationView.init [] 0).next_btn ⟨everyoneOnlyGuild, 1⟩ 0
        = Except.ok (PaginationView.init [] 0, Response.ephemeralText "This isn't your dashboard.") :=
  nonauthor_page_controls_rejected (PaginationView.init [] 0) ⟨everyoneOnlyGuild, 1⟩ 0 (by decide)

/-- C7: after `update_buttons`, Previous is disabled exactly when
`current_page = 0`, Next is disabled exactly when
`current_page = total_pages - 1`, the page-counter label is
`"Page {current_page+1}/{total_pages}"`, and (being a pure function of
`current_page` and `total_pages`) recomputation is idempotent. -/
theorem update_buttons_state_spec (v : PaginationView) :
    (v.update_buttons.prev_disabled = true ↔ v.current_page = 0) ∧
    (v.update_buttons.next_disabled = true ↔ v.current_page = (v.total_pages : Int) - 1) ∧
    v.update_buttons.page_counter_label
        = "Page " ++ toString (v.current_page + 1) ++ "/" ++ toString v.total_pages ∧
    v.update_buttons.update_buttons = v.update_buttons := by
  exact ⟨decide_eq_true_iff, decide_eq_true_iff, rfl, rfl⟩

/-- C8: when more than 8 permissions are enabled, the Key Permissions
field lists exactly the first 8 human-readable names and appends the
truncation note `...and {n-8} more`. -/
theorem perm_truncation_note (permissions : List (String × Bool))
    (h : 8 < (permNames permissions).length) :
    keyPermsValue permissions =
      "```diff\n" ++
        (String.intercalate "\n" (((permNames permissions).take 8).map (fun p => "✅ " ++ p)) ++
          "\n...and " ++ toString ((permNames permissions).length - 8) ++ " more") ++ "\n```" := by
  have hne := append_more_ne_empty
      (String.intercalate "\n" (((permNames permissions).take 8).map (fun p => "✅ " ++ p)) ++
        "\n...and " ++ toString ((permNames permissions).length - 8))
  simp only [keyPermsValue]
  rw [if_pos h, if_neg hne]

/-- C8 witness: a role with 12 enabled permissions lists exactly 8 named
permissions plus the note `...and 4 more`. -/
theorem perm_truncation_note_witness :
    8 < (permNames twelvePerms).length ∧
    keyPermsValue twelvePerms =
      "```diff\n" ++
        (String.intercalate "\n" (((permNames twelvePerms).take 8).map (fun p => "✅ " ++ p)) ++
          "\n...and " ++ toString ((permNames twelvePerms).length - 8) ++ " more") ++ "\n```" ∧
    keyPermsValue twelvePerms =
      "```diff\n✅ P1\n✅ P2\n✅ P3\n✅ P4\n✅ P5\n✅ P6\n✅ P7\n✅ P8\n...and 4 more\n```" :=
  ⟨by decide, perm_truncation_note twelvePerms (by decide), by decide⟩

/-- C9: the role-detail selector performs no authorization check: an
acting user different from the dashboard's creator still receives the
private detail panel (and the exact same response the creator would get),
whereas the Previous page control rejects that same user. -/
theorem select_ignores_acting_user (g : Guild) (u rid : Nat) (role : Role)
    (v : PaginationView) (now : Int)
    (hrole : g.get_role rid = some role) (hu : u ≠ v.author_id) :
    RoleDetailSelect.callback [rid] ⟨g, u⟩
        = Except.ok (Response.ephemeralEmbed (detailEmbed role)) ∧
    RoleDetailSelect.callback [rid] ⟨g, u⟩ = RoleDetailSelect.callback [rid] ⟨g, v.author_id⟩ ∧
    v.prev_btn ⟨g, u⟩ now = Except.ok (v, Response.ephemeralText "This isn't your dashboard.") := by
  refine ⟨?_, rfl, ?_⟩
  · simp [RoleDetailSelect.callback, hrole]
  · unfold PaginationView.prev_btn
    rw [if_pos hu]

/-- C9 witness: user 1 (not the creator, user 0) selects role 7 and
receives the detail panel, while the same user pressing Previous is
rejected. -/
theorem select_ignores_acting_user_witness :
    RoleDetailSelect.callback [7] ⟨sampleGuild, 1⟩
        = Except.ok (Response.ephemeralEmbed (detailEmbed sampleRole)) ∧
    RoleDetailSelect.callback [7] ⟨sampleGuild, 1⟩
        = RoleDetailSelect.callback [7] ⟨sampleGuild, (PaginationView.init [] 0).author_id⟩ ∧
    (PaginationView.init [] 0).prev_btn ⟨sampleGuild, 1⟩ 0
        = Except.ok (PaginationView.init [] 0, Response.ephemeralText "This isn't your dashboard.") :=
  select_ignores_acting_user sampleGuild 1 7 sampleRole (PaginationView.init [] 0) 0
    (by decide) (by decide)

/-- C10: a role with zero enabled permissions gets the placeholder
`No special perms` in the Key Permissions field of its detail panel. -/
theorem zero_perms_placeholder (role : Role)
    (h : role.permissions.filter (fun p => p.2) = []) :
    EmbedField.mk "🔑 Key Permissions" "```diff\nNo special perms\n```" true
      ∈ (detailEmbed role).fields := by
  have hnames : permNames role.permissions = [] := by
    unfold permNames
    rw [h]
    rfl
  have hkey : keyPermsValue role.permissions = "```diff\nNo special perms\n```" := by
    simp only [keyPermsValue, hnames]
    rfl
  simp [detailEmbed, hkey]

/-- C10 witness: `sampleRole` has two permissions, both disabled, and its
detail panel shows the placeholder. -/
theorem zero_perms_placeholder_witness :
    EmbedField.mk "🔑 Key Permissions" "```diff\nNo special perms\n```" true
      ∈ (detailEmbed sampleRole).fields :=
  zero_perms_placeholder sampleRole (by decide)
